import Mathlib

/-
Verification of the drug-lookup and analysis-aggregation layer of the NHS
data hub dashboard (src/pages/02_Consolidated_View.py).  The Python source
is shallowly embedded: each Python function is translated to an executable
Lean definition over explicit data, with monetary amounts as rationals,
numpy-scalar division by zero modelled as a non-finite marker (PyNum none),
builtin-float division by zero modelled as a raised ZeroDivisionError,
pandas positional indexing modelled as an Except value carrying the
IndexError, untyped call arguments modelled by a sum type where the source
mixes them up, and the wall clock passed as an explicit parameter.
-/

set_option maxRecDepth 4000

namespace NHS

/-- A Python float value: some q is a finite value (modelled as a rational),
none stands for the non-finite float (inf or nan) that numpy produces when a
division by zero occurs. -/
abbrev PyNum := Option ℚ

/-- Float division as performed by numpy on series scalars: division by zero
yields a non-finite value (inf or nan) instead of raising. -/
def pyDiv (a b : ℚ) : PyNum := if b = 0 then none else some (a / b)

/-- Positional indexing as performed by pandas .iloc: a negative index counts
from the end, and an index out of range raises IndexError. -/
def pyIloc {α : Type} (l : List α) (i : Int) : Except String α :=
  let j : Int := if i < 0 then (l.length : Int) + i else i
  if j < 0 then .error ("IndexError: single positional indexer is out-of-bounds")
  else
    match l.get? j.toNat with
    | some a => .ok a
    | none => .error ("IndexError: single positional indexer is out-of-bounds")

/-- Whether the character list pat occurs at the start of the character list s. -/
def charsStart : List Char → List Char → Bool
  | [], _ => true
  | _ :: _, [] => false
  | a :: as, b :: bs => a == b && charsStart as bs

/-- Whether the character list needle occurs contiguously inside hay. -/
def charsSub (needle : List Char) : List Char → Bool
  | [] => needle.isEmpty
  | b :: bs => charsStart needle (b :: bs) || charsSub needle bs

/-- The Python expression needle in hay on strings (substring containment). -/
def pyIn (needle hay : String) : Bool := charsSub needle.data hay.data

/-- The Python str.lower method (ASCII case folding, as in the source data). -/
def pyLower (s : String) : String := String.mk (s.data.map Char.toLower)

/-- The Python str.upper method (ASCII case folding, as in the source data). -/
def pyUpper (s : String) : String := String.mk (s.data.map Char.toUpper)

/-- The Python str.title method: the first alphabetic character of every run
of alphabetic characters is uppercased, the rest are lowercased. -/
def pyTitle (s : String) : String :=
  String.mk (s.data.foldl
    (fun (acc : List Char × Bool) c =>
      let c2 := if c.isAlpha then (if acc.2 then c.toLower else c.toUpper) else c
      (acc.1 ++ [c2], c.isAlpha)) ([], false)).1

/-- The Python slice s[:n] on a string. -/
def pySlice (s : String) (n : Nat) : String := String.mk (s.data.take n)

/-- The Python str.isdigit method on ASCII strings: non-empty and every
character a decimal digit. -/
def pyIsdigit (s : String) : Bool := !s.data.isEmpty && s.data.all Char.isDigit

/-- The replace chain of search_drugs line 128: every uppercase ASCII letter
from A to Z is removed from the string. -/
def stripUppers (s : String) : String :=
  String.mk (s.data.filter (fun c => !('A' ≤ c && c ≤ 'Z')))

/-- One insertion step of a stable insertion sort. -/
def insSorted {α : Type} (le : α → α → Bool) (a : α) : List α → List α
  | [] => [a]
  | b :: bs => if le a b then a :: b :: bs else b :: insSorted le a bs

/-- Stable sort (models pandas sort_values and the ascending group-key order
of pandas groupby). -/
def sortedBy {α : Type} (le : α → α → Bool) (l : List α) : List α :=
  l.foldr (insSorted le) []

/-- Arithmetic mean of a list of rationals (the pandas Series.mean of a
non-empty series; every use site below is guarded to non-empty input). -/
def qMean (l : List ℚ) : ℚ := l.sum / (l.length : ℚ)

/-- Maximum of a list of rationals, 0 on the empty list (every use site is
guarded to non-empty input). -/
def qMax : List ℚ → ℚ
  | [] => 0
  | x :: xs => xs.foldl max x

/-- Minimum of a list of rationals, 0 on the empty list (every use site is
guarded to non-empty input). -/
def qMin : List ℚ → ℚ
  | [] => 0
  | x :: xs => xs.foldl min x

/-- Round to the nearest integer, ties to even, as Python float formatting
does for the .0f and .1f format specifiers. -/
def roundHalfEven (q : ℚ) : Int :=
  let f := ⌊q⌋
  let frac := q - (f : ℚ)
  if frac > 1/2 then f + 1
  else if frac < 1/2 then f
  else if f % 2 = 0 then f else f + 1

/-- Insert thousands separators into a digit string given in reverse order. -/
def commaRev (cs : List Char) : List Char :=
  (cs.enum.foldl
    (fun acc (p : Nat × Char) =>
      if p.1 ≠ 0 && p.1 % 3 == 0 then p.2 :: ',' :: acc else p.2 :: acc) [])

/-- The Python format specifier {:,.0f}: round half-even to an integer and
group digits in threes. -/
def fmtComma0 (q : ℚ) : String :=
  let n := roundHalfEven q
  (if n < 0 then ("-") else ("")) ++ String.mk (commaRev (toString n.natAbs).data.reverse)

/-- The Python format specifier {:.1f} on a finite value: one decimal digit,
half-even rounding; a non-finite value renders as nan. -/
def fmtPct1 (v : PyNum) : String :=
  match v with
  | none => ("nan")
  | some q =>
    let t := roundHalfEven (q * 10)
    (if t < 0 then ("-") else ("")) ++ toString (t.natAbs / 10) ++ (".") ++ toString (t.natAbs % 10)

/-- The Python format specifier {:+.1f} on a finite value: as fmtPct1 but
with an explicit plus sign on non-negative values. -/
def fmtSignedPct1 (v : PyNum) : String :=
  match v with
  | none => ("+nan")
  | some q =>
    let t := roundHalfEven (q * 10)
    (if t < 0 then ("-") else ("+")) ++ toString (t.natAbs / 10) ++ (".") ++ toString (t.natAbs % 10)

/-- A calendar date as produced by pandas to_datetime on the API date
column (first-of-month semantics in the source data). -/
structure MDate where
  year : Nat
  month : Nat
  day : Nat
deriving DecidableEq

/-- Lexicographic comparison of dates, as pandas timestamp comparison. -/
def mdLE (a b : MDate) : Bool :=
  a.year < b.year || (a.year == b.year && (a.month < b.month ||
    (a.month == b.month && a.day ≤ b.day)))

/-- The pandas to_datetime parser restricted to the ISO YYYY-MM-DD form the
OpenPrescribing API emits; any other string raises a parse error (the none
result here). -/
def parseDate (s : String) : Option MDate :=
  match s.data with
  | [y1, y2, y3, y4, '-', m1, m2, '-', d1, d2] =>
    if [y1, y2, y3, y4, m1, m2, d1, d2].all Char.isDigit then
      let y := (y1.toNat - 48) * 1000 + (y2.toNat - 48) * 100 + (y3.toNat - 48) * 10 + (y4.toNat - 48)
      let m := (m1.toNat - 48) * 10 + (m2.toNat - 48)
      let d := (d1.toNat - 48) * 10 + (d2.toNat - 48)
      if 1 ≤ m && m ≤ 12 && 1 ≤ d && d ≤ 31 then some ⟨y, m, d⟩ else none
    else none
  | _ => none

/-- Zero-padded strftime (%Y-%m) rendering of a date. -/
def fmtYM (d : MDate) : String :=
  let pad := fun (w : Nat) (n : Nat) =>
    let s := toString n
    String.mk (List.replicate (w - s.data.length) '0') ++ s
  pad 4 d.year ++ ("-") ++ pad 2 d.month

/-- One raw row of an OpenPrescribing JSON payload, before pandas
processing: the date is still a string, amounts are numeric. The regional
endpoint additionally carries row_name (ignored by the trend fetcher). -/
structure RawRow where
  date : String
  actual_cost : ℚ
  items : ℚ
  row_name : String
deriving DecidableEq

/-- One processed national trend observation (a row of the trend dataframe
after to_datetime). -/
structure TrendRecord where
  date : MDate
  actual_cost : ℚ
  items : ℚ
deriving DecidableEq

/-- One processed regional observation (a row of the ICB dataframe after
to_datetime). -/
structure RegRecord where
  row_name : String
  date : MDate
  actual_cost : ℚ
  items : ℚ
deriving DecidableEq

/-- The possible outcomes of one HTTP GET against the upstream API, as
distinguished by get_openprescribing_data: a 200 response with a JSON array
of rows, a 200 response whose body is not valid JSON, a non-200 status, a
timeout, or an unreachable host. -/
inductive Upstream where
  | ok (rows : List RawRow)
  | badJson
  | non200
  | timeout
  | unreachable
deriving DecidableEq

/-- get_openprescribing_data: returns the decoded JSON rows on success and
None on any requests exception (raise_for_status on non-200, timeout,
connection error, or a JSON decode failure, all of which are
RequestException subclasses caught by the handler at lines 41-43). -/
def get_openprescribing_data : Upstream → Option (List RawRow)
  | .ok rows => some rows
  | _ => none

/-- The months argument a fetcher actually receives at run time.  The
parameters are untyped in Python: a numeric window is modelled by the
cutoff date datetime.now() minus months times 30 days that it induces,
while a string (as passed by the mixed-up call at line 522, where the
resolved drug name lands in the months slot) makes
timedelta(days=months*30) raise TypeError. -/
inductive MonthsArg where
  | num (cutoff : MDate)
  | str (s : String)
deriving DecidableEq

/-- get_total_spending_trend: fetch the national series; on a None payload
or an empty frame return the empty frame; otherwise run to_datetime over
the date column (which raises on an unparseable date), sort ascending by
date, then compute the trailing-window cutoff (which raises TypeError when
the months argument is a string) and keep the rows at or after it. -/
def get_total_spending_trend (months : MonthsArg) (resp : Upstream) :
    Except String (List TrendRecord) :=
  match get_openprescribing_data resp with
  | none => .ok []
  | some rows =>
    if rows.isEmpty then .ok []
    else
      match rows.mapM (fun r =>
        match parseDate r.date with
        | some d => Except.ok (⟨d, r.actual_cost, r.items⟩ : TrendRecord)
        | none => Except.error ("DateParseError: unable to parse date column")) with
      | .error e => .error e
      | .ok recs =>
        match months with
        | .str _ => .error ("TypeError: unsupported type for timedelta days component: str")
        | .num cutoff => .ok ((sortedBy (fun a b => mdLE a.date b.date) recs).filter
            (fun r => mdLE cutoff r.date))

/-- get_drug_spending_by_icb: fetch the per-ICB rows; on a None payload or
an empty frame return the empty frame; otherwise run to_datetime over the
date column (which raises on an unparseable date), then compute the
trailing-window cutoff (which raises TypeError when the months argument is
a string) and keep the rows at or after it (no sort in the source). -/
def get_drug_spending_by_icb (months : MonthsArg) (resp : Upstream) :
    Except String (List RegRecord) :=
  match get_openprescribing_data resp with
  | none => .ok []
  | some rows =>
    if rows.isEmpty then .ok []
    else
      match rows.mapM (fun r =>
        match parseDate r.date with
        | some d => Except.ok (⟨r.row_name, d, r.actual_cost, r.items⟩ : RegRecord)
        | none => Except.error ("DateParseError: unable to parse date column")) with
      | .error e => .error e
      | .ok recs =>
        match months with
        | .str _ => .error ("TypeError: unsupported type for timedelta days component: str")
        | .num cutoff => .ok (recs.filter (fun r => mdLE cutoff r.date))

/-- The literal entries of the dict literal in get_bnf_lookup, in source
order, as (name, (code, category)) triples.  The name prednisolone appears
twice, exactly as in the source (lines 77 and 88). -/
def bnf_lookup_entries : List (String × String × String) :=
  [ ("ramipril", "0205051R0", "ACE Inhibitor"),
    ("amlodipine", "0206020A0", "Calcium Channel Blocker"),
    ("atorvastatin", "0212000Y0", "Statin"),
    ("simvastatin", "0212000X0", "Statin"),
    ("warfarin", "0208020W0", "Anticoagulant"),
    ("clopidogrel", "0209000C0", "Antiplatelet"),
    ("paracetamol", "0407010Q0", "Analgesic"),
    ("morphine", "0407020Q0", "Opioid Analgesic"),
    ("tramadol", "0407020T0", "Opioid Analgesic"),
    ("sertraline", "0403030Q0", "SSRI Antidepressant"),
    ("fluoxetine", "0403030F0", "SSRI Antidepressant"),
    ("citalopram", "0403030C0", "SSRI Antidepressant"),
    ("lorazepam", "0401020L0", "Benzodiazepine"),
    ("amoxicillin", "0501013B0", "Penicillin Antibiotic"),
    ("flucloxacillin", "0501011F0", "Penicillin Antibiotic"),
    ("ciprofloxacin", "0501040C0", "Quinolone Antibiotic"),
    ("metronidazole", "0501040M0", "Antibiotic"),
    ("metformin", "0601022B0", "Diabetes - Biguanide"),
    ("insulin", "0601010H0", "Diabetes - Insulin"),
    ("gliclazide", "0601021G0", "Diabetes - Sulfonylurea"),
    ("levothyroxine", "0602010L0", "Thyroid Hormone"),
    ("prednisolone", "0603020P0", "Corticosteroid"),
    ("omeprazole", "0103050P0", "Proton Pump Inhibitor"),
    ("lansoprazole", "0103050L0", "Proton Pump Inhibitor"),
    ("ranitidine", "0103020R0", "H2 Receptor Antagonist"),
    ("loperamide", "0104020L0", "Anti-diarrhoeal"),
    ("salbutamol", "0301011R0", "Beta2 Agonist"),
    ("beclometasone", "0302000N0", "Corticosteroid"),
    ("prednisolone", "0302020P0", "Oral Corticosteroid"),
    ("omalizumab", "0302020O0", "Monoclonal Antibody"),
    ("montelukast", "0303020M0", "Leukotriene Receptor Antagonist"),
    ("adalimumab", "0212000AA", "TNF Alpha Inhibitor"),
    ("infliximab", "0212000AC", "TNF Alpha Inhibitor"),
    ("etanercept", "0212000AB", "TNF Alpha Inhibitor"),
    ("rituximab", "0801020T0", "Monoclonal Antibody"),
    ("trastuzumab", "0801020Q0", "Monoclonal Antibody"),
    ("bevacizumab", "0801020B0", "Monoclonal Antibody"),
    ("folic acid", "0906011F0", "Vitamin B9"),
    ("iron sulfate", "0901011I0", "Iron Supplement"),
    ("vitamin d", "0906060V0", "Vitamin D"),
    ("ibuprofen", "1001010I0", "NSAID"),
    ("diclofenac", "1001010D0", "NSAID"),
    ("naproxen", "1001010N0", "NSAID"),
    ("allopurinol", "1003020A0", "Uric Acid Reducer"),
    ("chloramphenicol", "1103010C0", "Antibiotic Eye Drops"),
    ("timolol", "1106020T0", "Glaucoma Treatment"),
    ("sodium chloride", "1201010S0", "Nasal Decongestant"),
    ("hydrocortisone", "1303020H0", "Topical Corticosteroid"),
    ("emollient", "1301020E0", "Skin Moisturizer") ]

/-- One step of building a Python dict from a literal: a repeated key keeps
its first position but takes the later value. -/
def pyDictInsert (acc : List (String × String × String)) (kv : String × String × String) :
    List (String × String × String) :=
  if acc.any (fun e => e.1 == kv.1) then
    acc.map (fun e => if e.1 == kv.1 then (e.1, kv.2) else e)
  else acc ++ [kv]

/-- Python dict-literal construction over an entry list (insertion order,
last value wins for a duplicate key). -/
def pyDict (l : List (String × String × String)) : List (String × String × String) :=
  l.foldl pyDictInsert []

/-- get_bnf_lookup: the static reference table, i.e. the dict built from
the literal entries with Python dict semantics. -/
def get_bnf_lookup : List (String × String × String) := pyDict bnf_lookup_entries

/-- get_bnf_categories: BNF chapter number to chapter name. -/
def get_bnf_categories : List (String × String) :=
  [ ("01", "Gastro-Intestinal System"),
    ("02", "Cardiovascular System"),
    ("03", "Respiratory System"),
    ("04", "Central Nervous System"),
    ("05", "Infections"),
    ("06", "Endocrine System"),
    ("07", "Obstetrics, Gynaecology, and Urinary-Tract Disorders"),
    ("08", "Malignant Disease and Immunosuppression"),
    ("09", "Nutrition and Blood"),
    ("10", "Musculoskeletal and Joint Diseases"),
    ("11", "Eye"),
    ("12", "Ear, Nose, and Oropharynx"),
    ("13", "Skin"),
    ("14", "Immunological Products and Vaccines"),
    ("15", "Anaesthesia") ]

/-- The direct-BNF-code test of search_drugs line 128: the query is exactly
10 characters and, after removing every uppercase letter A-Z, the rest is a
non-empty string of decimal digits. -/
def isDirectCode (q : String) : Bool :=
  q.data.length == 10 && pyIsdigit (stripUppers q)

/-- The local reference-table matches of search_drugs lines 134-140:
entries whose lowercased name contains the lowercased query. -/
def localMatches (query : String) : List (String × String × String) :=
  get_bnf_lookup.filter (fun e => pyIn (pyLower query) (pyLower e.1))

/-- The last-resort suggestion pass of search_drugs lines 166-171.  The
generator filters the characters of the name by len(char) > 2, which is
false for every single-character string, so the any() is always over an
empty generator; the first three survivors are kept. -/
def suggestions (query : String) : List (String × String × String) :=
  (get_bnf_lookup.filter (fun e =>
    ((pyLower e.1).data.filter (fun _ => decide (1 > 2))).any
      (fun c => pyIn (String.mk [c]) (pyLower query)))).map
    (fun e => (e.1, e.2.1, ("Similar to: ") ++ e.2.2)) |>.take 3

/-- The prefix-probing loop of search_drugs lines 154-160: for each common
BNF chapter code build a candidate code and probe the remote source; a
probe exception aborts the enclosing try block (falling to the suggestion
pass), a non-empty probe returns a single synthetic match. -/
def prefixLoop (probe : String → Except String (List TrendRecord)) (query : String) :
    List String → List (String × String × String)
  | [] => suggestions query
  | p :: ps =>
    let code := p ++ ("000") ++ pyUpper (pySlice query 2) ++ ("0")
    match probe code with
    | .error _ => suggestions query
    | .ok d => if d.isEmpty then prefixLoop probe query ps
               else [(pyTitle query, code, ("Found via API search"))]

/-- The API fallback of search_drugs lines 145-171 (the try block plus the
suggestion pass): probe the raw query, then the prefix candidates; any
exception inside the try is swallowed and the suggestion pass runs. -/
def apiFallback (probe : String → Except String (List TrendRecord)) (query : String) :
    List (String × String × String) :=
  match probe query with
  | .error _ => suggestions query
  | .ok d =>
    if d.isEmpty then
      prefixLoop probe query [("0301"), ("0302"), ("0303"), ("0601"), ("0602"), ("0801"), ("0212")]
    else [(pyTitle query, pyLower query, ("Found in OpenPrescribing Database"))]

/-- The name-matching tail of search_drugs (lines 134 onward): local
reference-table matches if any, otherwise the API fallback. -/
def searchLocal (probe : String → Except String (List TrendRecord)) (query : String) :
    Except String (List (String × String × String)) :=
  let lm := localMatches query
  if lm.isEmpty then .ok (apiFallback probe query) else .ok lm

/-- search_drugs: resolve a query to (name, code, category) triples.  The
probe parameter stands for get_total_spending_trend with months=1 against
the ambient upstream source; note that the probe on the direct-code branch
(line 130) is outside any try block, so a probe exception propagates. -/
def search_drugs (probe : String → Except String (List TrendRecord)) (query : String) :
    Except String (List (String × String × String)) :=
  if isDirectCode query then
    match probe query with
    | .error e => .error e
    | .ok td =>
      if td.isEmpty then searchLocal probe query
      else .ok [(pyTitle query, pyUpper query, ("Direct BNF Code"))]
  else searchLocal probe query

/-- The related-drug context of get_related_drugs_context. -/
structure RelatedContext where
  bnf_chapter : String
  related_drugs : List (String × String × String)
  bnf_categories : List (String × String)
deriving DecidableEq

/-- get_related_drugs_context: the first five table entries in the same BNF
chapter as the given code, excluding the code itself. -/
def get_related_drugs_context (bnf_code : String) : RelatedContext :=
  let chapter := pySlice bnf_code 2
  { bnf_chapter := chapter,
    related_drugs := (get_bnf_lookup.filter
      (fun e => charsStart chapter.data e.2.1.data && e.2.1 != bnf_code)).take 5,
    bnf_categories := get_bnf_categories }

/-- The trend_data sub-dictionary of get_enhanced_drug_analysis.  A missing
key is none; a present percentage whose denominator was zero carries the
non-finite marker. -/
structure TrendData where
  months_of_data : Nat
  date_range : String
  latest_cost : ℚ
  latest_items : ℚ
  mom_change_pct : Option PyNum
  yoy_change_pct : Option PyNum
  overall_trend : Option String
deriving DecidableEq

/-- The derby_vs_national sub-dictionary of the regional block.  Its
deviation field is always a finite value: it is computed with builtin
Python float division, which raises rather than producing a non-finite
value when the denominator is zero. -/
structure DerbyData where
  derby_cost : ℚ
  vs_average_pct : ℚ
  percentile_rank : ℚ
deriving DecidableEq

/-- The regional_data sub-dictionary of get_enhanced_drug_analysis. -/
structure RegionalData where
  total_icbs : Nat
  highest_spending_icb : String
  highest_spending_amount : ℚ
  lowest_spending_icb : String
  lowest_spending_amount : ℚ
  national_total_cost : ℚ
  national_total_items : ℚ
  average_icb_cost : ℚ
  median_icb_cost : ℚ
  derby_vs_national : Option DerbyData
deriving DecidableEq

/-- The seasonal_patterns sub-dictionary of get_enhanced_drug_analysis. -/
structure SeasonalData where
  highest_spending_month : Nat
  lowest_spending_month : Nat
  highest_spending_quarter : Nat
  seasonal_variation_pct : PyNum
deriving DecidableEq

/-- The full analysis dictionary returned by get_enhanced_drug_analysis. -/
structure Analysis where
  drug_name : String
  analysis_date : String
  data_sources : List String
  trend_data : Option TrendData
  regional_data : Option RegionalData
  seasonal_patterns : Option SeasonalData
deriving DecidableEq

/-- The actual_cost column of the trend dataframe. -/
def trendCosts (t : List TrendRecord) : List ℚ := t.map (fun r => r.actual_cost)

/-- Earliest date in a trend dataframe (guarded to non-empty input). -/
def datesMin (t : List TrendRecord) : MDate :=
  match t.map (fun r => r.date) with
  | [] => ⟨0, 0, 0⟩
  | d :: ds => ds.foldl (fun a b => if mdLE a b then a else b) d

/-- Latest date in a trend dataframe (guarded to non-empty input). -/
def datesMax (t : List TrendRecord) : MDate :=
  match t.map (fun r => r.date) with
  | [] => ⟨0, 0, 0⟩
  | d :: ds => ds.foldl (fun a b => if mdLE a b then b else a) d

/-- Lines 194-209 of get_enhanced_drug_analysis: month-over-month change
when at least 2 rows, the year-over-year change guarded by len >= 12 but
reading iloc[-13], and the head-6 versus tail-6 qualitative trend label. -/
def momYoyTrend (t : List TrendRecord) (base : TrendData) : Except String TrendData :=
  if t.length ≥ 2 then
    match pyIloc (trendCosts t) (-1), pyIloc (trendCosts t) (-2) with
    | .ok recent, .ok previous =>
      let b1 := { base with
        mom_change_pct := some ((pyDiv (recent - previous) previous).map (fun q => q * 100)) }
      let after12 : Except String TrendData :=
        if t.length ≥ 12 then
          match pyIloc (trendCosts t) (-13) with
          | .ok yoyCost => .ok { b1 with
              yoy_change_pct := some ((pyDiv (recent - yoyCost) yoyCost).map (fun q => q * 100)) }
          | .error e => .error e
        else .ok b1
      after12.map (fun b2 =>
        if t.length ≥ 6 then
          let recentAvg := qMean ((trendCosts t).drop ((trendCosts t).length - 6))
          let olderAvg := qMean ((trendCosts t).take 6)
          let label := if recentAvg > olderAvg * (11/10) then ("increasing")
            else if recentAvg < olderAvg * (9/10) then ("decreasing")
            else ("stable")
          { b2 with overall_trend := some label }
        else b2)
    | .error e, _ => .error e
    | _, .error e => .error e
  else .ok base

/-- Lines 184-211 of get_enhanced_drug_analysis: the trend block, absent on
an empty frame. -/
def trendBlock (t : List TrendRecord) : Except String (Option TrendData) :=
  if t.isEmpty then .ok none
  else
    match pyIloc t (-1) with
    | .error e => .error e
    | .ok last =>
      let base : TrendData :=
        { months_of_data := t.length,
          date_range := fmtYM (datesMin t) ++ (" to ") ++ fmtYM (datesMax t),
          latest_cost := last.actual_cost,
          latest_items := last.items,
          mom_change_pct := none, yoy_change_pct := none, overall_trend := none }
      (momYoyTrend t base).map some

/-- One row of the per-ICB summary frame. -/
structure ICBRow where
  name : String
  cost : ℚ
  items : ℚ
deriving DecidableEq

/-- The groupby row_name aggregation of lines 217-220: one row per distinct
region name with summed cost and items, rows in ascending name order (the
default sorted group keys of pandas groupby). -/
def icbSummary (rows : List RegRecord) : List ICBRow :=
  (sortedBy (fun a b => a ≤ b) ((rows.map (fun r => r.row_name)).dedup)).map
    (fun n =>
      { name := n,
        cost := ((rows.filter (fun r => r.row_name == n)).map (fun r => r.actual_cost)).sum,
        items := ((rows.filter (fun r => r.row_name == n)).map (fun r => r.items)).sum })

/-- First summary row attaining the maximal cost (pandas idxmax). -/
def rowIdxmax : List ICBRow → ICBRow
  | [] => ⟨("") , 0, 0⟩
  | r :: rs => rs.foldl (fun best x => if x.cost > best.cost then x else best) r

/-- First summary row attaining the minimal cost (pandas idxmin). -/
def rowIdxmin : List ICBRow → ICBRow
  | [] => ⟨("") , 0, 0⟩
  | r :: rs => rs.foldl (fun best x => if x.cost < best.cost then x else best) r

/-- The pandas Series.median of a non-empty list: middle of the sorted
values, or the average of the two middles for even length. -/
def qMedian (l : List ℚ) : ℚ :=
  let s := sortedBy (fun a b => a ≤ b) l
  let n := s.length
  if n % 2 = 1 then s.getD (n / 2) 0
  else (s.getD (n / 2 - 1) 0 + s.getD (n / 2) 0) / 2

/-- The Derby filter of line 236: summary rows whose name contains the
substring derby case-insensitively. -/
def derbyFilter (s : List ICBRow) : List ICBRow :=
  s.filter (fun e => pyIn ("derby") (pyLower e.name))

/-- Lines 214-246 of get_enhanced_drug_analysis: the regional block, absent
on an empty frame; inside it the Derby sub-block with deviation from the
national mean and the percentile rank (fraction of region totals at or
below the Derby total, times 100).  Both derby_cost and the national mean
are builtin Python floats there (each produced by float(...)), so the
deviation at line 242 raises ZeroDivisionError when the mean is zero,
aborting the whole derivation. -/
def regionalBlock (rows : List RegRecord) : Except String (Option RegionalData) :=
  if rows.isEmpty then .ok none
  else
    let s := icbSummary rows
    if s.isEmpty then .ok none
    else
      let avg := qMean (s.map (fun e => e.cost))
      let reg := fun (derby : Option DerbyData) =>
        { total_icbs := s.length,
          highest_spending_icb := (rowIdxmax s).name,
          highest_spending_amount := qMax (s.map (fun e => e.cost)),
          lowest_spending_icb := (rowIdxmin s).name,
          lowest_spending_amount := qMin (s.map (fun e => e.cost)),
          national_total_cost := (s.map (fun e => e.cost)).sum,
          national_total_items := (s.map (fun e => e.items)).sum,
          average_icb_cost := avg,
          median_icb_cost := qMedian (s.map (fun e => e.cost)),
          derby_vs_national := derby : RegionalData }
      match derbyFilter s with
      | [] => .ok (some (reg none))
      | d :: _ =>
        if avg = 0 then .error ("ZeroDivisionError: float division by zero")
        else .ok (some (reg (some
          { derby_cost := d.cost,
            vs_average_pct := ((d.cost - avg) / avg) * 100,
            percentile_rank :=
              ((s.countP (fun e => decide (e.cost ≤ d.cost)) : ℚ) / (s.length : ℚ)) * 100 })))

/-- Group a keyed value list by key, averaging the values per key, keys in
ascending order (pandas groupby mean). -/
def groupMeans (l : List (Nat × ℚ)) : List (Nat × ℚ) :=
  (sortedBy (fun a b => a ≤ b) ((l.map (fun p => p.1)).dedup)).map
    (fun k => (k, qMean ((l.filter (fun p => p.1 == k)).map (fun p => p.2))))

/-- First key of a keyed series attaining the maximal value (idxmax). -/
def seriesIdxmax : List (Nat × ℚ) → Nat
  | [] => 0
  | p :: ps => (ps.foldl (fun best x => if x.2 > best.2 then x else best) p).1

/-- First key of a keyed series attaining the minimal value (idxmin). -/
def seriesIdxmin : List (Nat × ℚ) → Nat
  | [] => 0
  | p :: ps => (ps.foldl (fun best x => if x.2 < best.2 then x else best) p).1

/-- Lines 249-263 of get_enhanced_drug_analysis: the seasonal block,
present when the trend frame is non-empty with at least 12 rows; averages
cost per calendar month and per quarter, and the normalized spread of the
monthly averages (non-finite when every cost is zero). -/
def seasonalBlock (t : List TrendRecord) : Option SeasonalData :=
  if t.isEmpty || t.length < 12 then none
  else
    let monthly := groupMeans (t.map (fun r => (r.date.month, r.actual_cost)))
    let quarterly := groupMeans (t.map (fun r => ((r.date.month + 2) / 3, r.actual_cost)))
    some { highest_spending_month := seriesIdxmax monthly,
           lowest_spending_month := seriesIdxmin monthly,
           highest_spending_quarter := seriesIdxmax quarterly,
           seasonal_variation_pct :=
             (pyDiv (qMax (monthly.map (fun p => p.2)) - qMin (monthly.map (fun p => p.2)))
               (qMean (monthly.map (fun p => p.2)))).map (fun q => q * 100) }

/-- The data_sources list built up at lines 180, 211 and 246. -/
def dataSources (trend : List TrendRecord) (icb : List RegRecord) : List String :=
  (if trend.isEmpty then [] else [("OpenPrescribing trend data (36 months)")]) ++
  (if icb.isEmpty then [] else [("OpenPrescribing ICB data (12 months)")])

/-- The metric derivation of get_enhanced_drug_analysis on already-fetched
frames (the body of lines 177-265 with the two fetch calls factored into
the trend and icb parameters).  The now parameter is the wall-clock
datetime.now().isoformat() value recorded at line 179.  The trend block
runs first in the source, so its IndexError aborts the whole derivation. -/
def analysis_core (now drug_name : String) (trend : List TrendRecord)
    (icb : List RegRecord) : Except String Analysis :=
  match trendBlock trend with
  | .error e => .error e
  | .ok td =>
    match regionalBlock icb with
    | .error e => .error e
    | .ok rd =>
      .ok { drug_name := drug_name,
            analysis_date := now,
            data_sources := dataSources trend icb,
            trend_data := td,
            regional_data := rd,
            seasonal_patterns := seasonalBlock trend }

/-- get_enhanced_drug_analysis end to end: fetch the trend frame with the
received months argument (line 184 forwards months unchanged, so a string
passed by the caller reaches the fetcher), derive the trend block (source
order: before the ICB fetch), fetch the regional frame with its own
hard-coded numeric window of 12 months (line 214, modelled by the cutoffI
parameter), derive the regional block (which can raise at line 242), and
assemble the analysis dictionary. -/
def get_enhanced_drug_analysis (now drug_name : String) (months : MonthsArg)
    (cutoffI : MDate) (trendResp icbResp : Upstream) : Except String Analysis :=
  match get_total_spending_trend months trendResp with
  | .error e => .error e
  | .ok trend =>
    match trendBlock trend with
    | .error e => .error e
    | .ok td =>
      match get_drug_spending_by_icb (.num cutoffI) icbResp with
      | .error e => .error e
      | .ok icb =>
        match regionalBlock icb with
        | .error e => .error e
        | .ok rd =>
          .ok { drug_name := drug_name,
                analysis_date := now,
                data_sources := dataSources trend icb,
                trend_data := td,
                regional_data := rd,
                seasonal_patterns := seasonalBlock trend }

/-- The resolve, fetch and derive pass triggered by one search (lines
472-522): search_drugs, then, on the first match, the enhanced analysis.
The call at line 522 is get_enhanced_drug_analysis(bnf_code, drug_name)
against the signature (drug_name, months=36): the BNF code lands in the
drug_name parameter and the resolved display name lands in the months
parameter, so the trend fetch receives a string months value.  The call
site has no exception handler, so any error from the fetch or derivation
propagates to the presentation layer.  A None result models a search with
no matches. -/
def analysis_pipeline (probe : String → Except String (List TrendRecord))
    (now : String) (cutoffI : MDate) (trendResp icbResp : Upstream)
    (query : String) : Except String (Option Analysis) :=
  match search_drugs probe query with
  | .error e => .error e
  | .ok [] => .ok none
  | .ok ((dn, code, _) :: _) =>
    match get_enhanced_drug_analysis now code (.str dn) cutoffI trendResp icbResp with
    | .error e => .error e
    | .ok a => .ok (some a)

/-- The lines of the comprehensive_context f-string template at lines
537-569, in order.  A conditional interpolation renders its data text when
the corresponding key is present in the analysis dictionary and its
fallback text (or the empty string) otherwise, exactly as in the
template. -/
def contextLines (drug_name bnf_code category : String) (a : Analysis)
    (rel : RelatedContext) : List String :=
  [ (""),
    ("Comprehensive Analysis for ") ++ pyTitle drug_name ++ (":"),
    (""),
    ("DRUG INFORMATION:"),
    ("- BNF Code: ") ++ bnf_code,
    ("- Category: ") ++ category,
    ("- BNF Chapter: ") ++ rel.bnf_chapter ++ (" - ") ++
      ((rel.bnf_categories.lookup rel.bnf_chapter).getD ("Unknown")),
    (""),
    ("SPENDING TRENDS:"),
    (match a.trend_data with
     | some td => ("- Data Period: ") ++ td.date_range
     | none => ("- No trend data available")),
    (match a.trend_data with
     | some td => ("- Latest Monthly Cost: £") ++ fmtComma0 td.latest_cost
     | none => ("")),
    (match a.trend_data with
     | some td => ("- Latest Monthly Items: ") ++ fmtComma0 td.latest_items
     | none => ("")),
    (match a.trend_data with
     | some td =>
       match td.mom_change_pct with
       | some v => ("- Month-on-Month Change: ") ++ fmtSignedPct1 v ++ ("%")
       | none => ("")
     | none => ("")),
    (match a.trend_data with
     | some td =>
       match td.yoy_change_pct with
       | some v => ("- Year-on-Year Change: ") ++ fmtSignedPct1 v ++ ("%")
       | none => ("")
     | none => ("")),
    (match a.trend_data with
     | some td =>
       match td.overall_trend with
       | some s => ("- Overall Trend: ") ++ pyTitle s
       | none => ("")
     | none => ("")),
    (""),
    ("REGIONAL ANALYSIS:"),
    (match a.regional_data with
     | some rd => ("- Total ICBs: ") ++ toString rd.total_icbs
     | none => ("- No regional data available")),
    (match a.regional_data with
     | some rd => ("- Highest Spending ICB: ") ++ rd.highest_spending_icb ++
         (" (£") ++ fmtComma0 rd.highest_spending_amount ++ (")")
     | none => ("")),
    (match a.regional_data with
     | some rd => ("- Lowest Spending ICB: ") ++ rd.lowest_spending_icb ++
         (" (£") ++ fmtComma0 rd.lowest_spending_amount ++ (")")
     | none => ("")),
    (match a.regional_data with
     | some rd => ("- National Average ICB Cost: £") ++ fmtComma0 rd.average_icb_cost
     | none => ("")),
    (match a.regional_data with
     | some rd =>
       match rd.derby_vs_national with
       | some dv => ("- Derby vs National Average: ") ++ fmtSignedPct1 (some dv.vs_average_pct) ++
           ("% (£") ++ fmtComma0 dv.derby_cost ++ (")")
       | none => ("")
     | none => ("")),
    (""),
    ("SEASONAL PATTERNS:"),
    (match a.seasonal_patterns with
     | some sd => ("- Highest Spending Month: ") ++ toString sd.highest_spending_month
     | none => ("- Insufficient data for seasonal analysis")),
    (match a.seasonal_patterns with
     | some sd => ("- Seasonal Variation: ") ++ fmtPct1 sd.seasonal_variation_pct ++ ("%")
     | none => ("")),
    (""),
    ("RELATED DRUGS IN SAME CATEGORY:"),
    String.intercalate (", ") ((rel.related_drugs.take 3).map (fun d => pyTitle d.1)),
    (""),
    ("DATA SOURCES:"),
    String.intercalate (", ") a.data_sources ]

/-- The comprehensive_context text: the template lines joined by
newlines. -/
def comprehensive_context (drug_name bnf_code category : String) (a : Analysis)
    (rel : RelatedContext) : String :=
  String.intercalate ("\n") (contextLines drug_name bnf_code category a rel)

instance {ε α : Type} [DecidableEq ε] [DecidableEq α] : DecidableEq (Except ε α) :=
  fun a b =>
    match a, b with
    | .ok x, .ok y =>
      if h : x = y then .isTrue (by rw [h]) else .isFalse (fun c => h (Except.ok.inj c))
    | .error x, .error y =>
      if h : x = y then .isTrue (by rw [h]) else .isFalse (fun c => h (Except.error.inj c))
    | .ok _, .error _ => .isFalse (fun c => Except.noConfusion c)
    | .error _, .ok _ => .isFalse (fun c => Except.noConfusion c)

/-- The analysis dictionary with its analysis_date entry blanked, used to
compare two derivations up to the recorded wall-clock timestamp. -/
def eraseDate (a : Analysis) : Analysis := { a with analysis_date := ("") }

/-- C1: the spec requires that a trend record set with exactly 12 periods
omits the year-over-year field without touching an out-of-range index; the
code instead enters the YoY branch at len >= 12 and reads iloc[-13], so on
this concrete 12-period record set the derivation raises IndexError. -/
theorem yoy_twelve_periods_raises_index_error :
    analysis_core ("2025-06-01T00:00:00") ("atorvastatin")
      [ ⟨⟨2024, 1, 1⟩, 100, 10⟩, ⟨⟨2024, 2, 1⟩, 101, 10⟩, ⟨⟨2024, 3, 1⟩, 102, 10⟩,
        ⟨⟨2024, 4, 1⟩, 103, 10⟩, ⟨⟨2024, 5, 1⟩, 104, 10⟩, ⟨⟨2024, 6, 1⟩, 105, 10⟩,
        ⟨⟨2024, 7, 1⟩, 106, 10⟩, ⟨⟨2024, 8, 1⟩, 107, 10⟩, ⟨⟨2024, 9, 1⟩, 108, 10⟩,
        ⟨⟨2024, 10, 1⟩, 109, 10⟩, ⟨⟨2024, 11, 1⟩, 110, 10⟩, ⟨⟨2024, 12, 1⟩, 111, 10⟩ ] []
    = .error ("IndexError: single positional indexer is out-of-bounds") := by
  rfl

/-- C9: the spec requires that a 12-period series with all equal monthly
averages yields a 0.0 percent seasonal variation without raising; the code
never reaches the seasonal block on this concrete 12-period all-equal
record set because the YoY branch raises IndexError first. -/
theorem seasonal_twelve_equal_periods_raises :
    analysis_core ("2025-06-01T00:00:00") ("salbutamol")
      [ ⟨⟨2024, 1, 1⟩, 5, 10⟩, ⟨⟨2024, 2, 1⟩, 5, 10⟩, ⟨⟨2024, 3, 1⟩, 5, 10⟩,
        ⟨⟨2024, 4, 1⟩, 5, 10⟩, ⟨⟨2024, 5, 1⟩, 5, 10⟩, ⟨⟨2024, 6, 1⟩, 5, 10⟩,
        ⟨⟨2024, 7, 1⟩, 5, 10⟩, ⟨⟨2024, 8, 1⟩, 5, 10⟩, ⟨⟨2024, 9, 1⟩, 5, 10⟩,
        ⟨⟨2024, 10, 1⟩, 5, 10⟩, ⟨⟨2024, 11, 1⟩, 5, 10⟩, ⟨⟨2024, 12, 1⟩, 5, 10⟩ ] []
    = .error ("IndexError: single positional indexer is out-of-bounds") := by
  rfl

/-- C2: an exception does escape the resolve, fetch, derive pipeline: the
query adalimumab resolves from the reference table, the call site at line
522 passes the resolved display name into the months parameter, and on any
non-empty well-formed trend payload the trend fetcher then raises
TypeError at timedelta(days=months*30), which the unguarded call site
propagates into the presentation layer. -/
theorem pipeline_type_error_escapes_on_nonempty_response :
    analysis_pipeline (fun _ => .ok []) ("2025-06-01T00:00:00") ⟨2020, 1, 1⟩
      (.ok [⟨("2024-01-01"), 200, 20, ("")⟩]) (.ok []) ("adalimumab")
    = .error ("TypeError: unsupported type for timedelta days component: str") := by
  rfl

/-- C3 counterexample: the derivation is not independent of the wall
clock: two calls on identical (empty) record sets at different clock
readings differ, because the analysis_date entry records datetime.now(). -/
theorem derive_wall_clock_dependence_counterexample :
    analysis_core ("2025-01-01T00:00:00") ("metformin") [] [] ≠
    analysis_core ("2025-01-02T00:00:00") ("metformin") [] [] := by
  decide

/-- C3 amended: the derivation is deterministic in its inputs and the
invocation timestamp; two calls with identical record sets agree on every
field except analysis_date. -/
theorem derive_deterministic_modulo_analysis_date :
    ∀ (now1 now2 drug_name : String) (trend : List TrendRecord) (icb : List RegRecord),
      (analysis_core now1 drug_name trend icb).map eraseDate =
      (analysis_core now2 drug_name trend icb).map eraseDate := by
  intro now1 now2 dn t icb
  unfold analysis_core
  cases trendBlock t with
  | error e => rfl
  | ok td =>
    cases regionalBlock icb with
    | error e => rfl
    | ok rd => rfl

/-- C4 counterexample: for the 10-character alphanumeric query ABCDE12345,
which is absent from the reference table, the resolver does not return a
synthetic identity with category Direct Code: when the remote probe finds
data it returns category Direct BNF Code, and when the probe finds nothing
it returns the empty list instead of a synthetic identity. -/
theorem direct_code_category_counterexample :
    search_drugs (fun _ => .ok [⟨⟨2024, 1, 1⟩, 100, 10⟩]) ("ABCDE12345")
        = .ok [(("Abcde12345"), ("ABCDE12345"), ("Direct BNF Code"))]
      ∧ search_drugs (fun _ => .ok []) ("ABCDE12345") = .ok []
      ∧ ("Direct BNF Code") ≠ ("Direct Code") := by
  refine ⟨rfl, rfl, by decide⟩

/-- C4 amended: for every query passing the direct-code test (10
characters, each a digit or uppercase letter, at least one digit), the
resolver probes the remote source rather than the reference table, and
when the probe returns a non-empty record set it returns exactly one
synthetic identity whose code is the uppercased query and whose category
is Direct BNF Code. -/
theorem direct_code_probe_success_result
    (probe : String → Except String (List TrendRecord)) (query : String)
    (td : List TrendRecord) (h1 : isDirectCode query = true)
    (h2 : probe query = .ok td) (h3 : td.isEmpty = false) :
    search_drugs probe query = .ok [(pyTitle query, pyUpper query, ("Direct BNF Code"))] := by
  unfold search_drugs
  rw [h1, if_pos rfl, h2]
  simp only [h3]
  rfl

/-- Witness for C4: the amended theorem applied to the concrete query
ABCDE12345 and a probe that returns one record. -/
theorem direct_code_probe_success_result_witness :
    search_drugs (fun _ => .ok [⟨⟨2024, 1, 1⟩, 100, 10⟩]) ("ABCDE12345")
      = .ok [(("Abcde12345"), ("ABCDE12345"), ("Direct BNF Code"))] := by
  have h := direct_code_probe_success_result (fun _ => .ok [⟨⟨2024, 1, 1⟩, 100, 10⟩])
    ("ABCDE12345") [⟨⟨2024, 1, 1⟩, 100, 10⟩] (by decide) rfl rfl
  rw [h]
  rfl

/-- The context line list for the adalimumab scenario with both record
sets empty (the analysis dictionary holds only the identity, timestamp and
empty source list). -/
def adalimumabContext : List String :=
  contextLines ("adalimumab") ("0212000AA") ("TNF Alpha Inhibitor")
    ⟨("adalimumab"), (""), [], none, none, none⟩ (get_related_drugs_context ("0212000AA"))

/-- C5: the query adalimumab resolves (for every probe) to the code
0212000AA with category TNF Alpha Inhibitor; with the upstream source
unreachable both record sets come back empty and the derived analysis has
no trend, regional or seasonal entry; and the narrative context for that
analysis contains the drug-identity lines and all three explicit fallback
lines for the trend, regional and seasonal sections. -/
theorem adalimumab_end_to_end :
    (∀ probe, search_drugs probe ("adalimumab")
        = .ok [(("adalimumab"), ("0212000AA"), ("TNF Alpha Inhibitor"))])
    ∧ (∀ (now : String) (m : MonthsArg) (cI : MDate),
        get_enhanced_drug_analysis now ("adalimumab") m cI .unreachable .unreachable
          = .ok ⟨("adalimumab"), now, [], none, none, none⟩)
    ∧ (("- No trend data available") ∈ adalimumabContext
        ∧ ("- No regional data available") ∈ adalimumabContext
        ∧ ("- Insufficient data for seasonal analysis") ∈ adalimumabContext
        ∧ ("- BNF Code: 0212000AA") ∈ adalimumabContext
        ∧ ("- Category: TNF Alpha Inhibitor") ∈ adalimumabContext
        ∧ ("Comprehensive Analysis for Adalimumab:") ∈ adalimumabContext) := by
  refine ⟨fun probe => rfl, fun now m cI => rfl, by decide⟩

/-- C6 counterexample: a 200 response whose single row carries an
unparseable date makes the trend fetcher raise a date-parse error to its
caller instead of returning an empty record set. -/
theorem fetch_bad_date_propagates_error :
    get_total_spending_trend (.num ⟨2020, 1, 1⟩) (.ok [⟨("not-a-date"), 100, 10, ("X")⟩])
      = .error ("DateParseError: unable to parse date column") := by
  rfl

/-- C6 amended: when the upstream source yields no data, is unreachable,
times out, returns a non-200 status, or returns a body that is not valid
JSON, both fetchers return an empty record set and no error. -/
theorem fetch_failure_modes_yield_empty :
    ∀ months : MonthsArg,
      (get_total_spending_trend months (.ok []) = .ok []
        ∧ get_total_spending_trend months .badJson = .ok []
        ∧ get_total_spending_trend months .non200 = .ok []
        ∧ get_total_spending_trend months .timeout = .ok []
        ∧ get_total_spending_trend months .unreachable = .ok [])
      ∧ (get_drug_spending_by_icb months (.ok []) = .ok []
        ∧ get_drug_spending_by_icb months .badJson = .ok []
        ∧ get_drug_spending_by_icb months .non200 = .ok []
        ∧ get_drug_spending_by_icb months .timeout = .ok []
        ∧ get_drug_spending_by_icb months .unreachable = .ok []) := by
  intro months
  exact ⟨⟨rfl, rfl, rfl, rfl, rfl⟩, ⟨rfl, rfl, rfl, rfl, rfl⟩⟩

/-- C7: for every query that is not a direct code and has at least one
reference-table name containing it case-insensitively, the resolver
returns exactly the filter of the reference table by that substring test:
all and only the matching (name, code, category) entries, as a sublist of
the table (hence in original table order). -/
theorem free_text_matches_all_and_only_in_table_order
    (probe : String → Except String (List TrendRecord)) (query : String)
    (h1 : isDirectCode query = false)
    (h2 : localMatches query ≠ []) :
    search_drugs probe query
        = .ok (get_bnf_lookup.filter (fun e => pyIn (pyLower query) (pyLower e.1)))
      ∧ (get_bnf_lookup.filter (fun e => pyIn (pyLower query) (pyLower e.1))).Sublist get_bnf_lookup
      ∧ ∀ e, e ∈ get_bnf_lookup.filter (fun e => pyIn (pyLower query) (pyLower e.1)) ↔
          (e ∈ get_bnf_lookup ∧ pyIn (pyLower query) (pyLower e.1) = true) := by
  refine ⟨?_, List.filter_sublist _, fun e => List.mem_filter⟩
  have h3 : (localMatches query).isEmpty = false := by
    cases hl : localMatches query with
    | nil => exact absurd hl h2
    | cons a as => rfl
  unfold search_drugs
  rw [h1]
  simp only [Bool.false_eq_true, if_false]
  unfold searchLocal
  simp only [h3, Bool.false_eq_true, if_false]
  rfl

/-- Witness for C7: the query statin resolves to exactly the two statin
entries of the table, in table order. -/
theorem free_text_matches_witness :
    search_drugs (fun _ => .ok []) ("statin")
      = .ok [(("atorvastatin"), ("0212000Y0"), ("Statin")),
             (("simvastatin"), ("0212000X0"), ("Statin"))] := by
  have h := (free_text_matches_all_and_only_in_table_order (fun _ => .ok []) ("statin")
    (by decide) (by decide)).1
  rw [h]
  rfl

/-- The total cost of the locally-relevant region: the first row of the
name-sorted summary whose name matches derby case-insensitively (the
iloc[0] of line 238). -/
def localDerbyCost (rows : List RegRecord) : ℚ :=
  ((derbyFilter (icbSummary rows)).headD ⟨("") , 0, 0⟩).cost

/-- C8 counterexample: on a regional record set whose only (hence
maximal) region matches the local-region predicate but whose total cost is
zero, the national mean is zero and the derby deviation at line 242
divides builtin floats by zero, so the regional block raises
ZeroDivisionError out of the derivation instead of reporting a percentile
rank of 100. -/
theorem derby_zero_mean_raises_zero_division :
    regionalBlock [⟨("NHS Derby and Derbyshire"), ⟨2024, 1, 1⟩, 0, 0⟩]
        = .error ("ZeroDivisionError: float division by zero")
      ∧ analysis_core ("2025-06-01T00:00:00") ("omalizumab") []
          [⟨("NHS Derby and Derbyshire"), ⟨2024, 1, 1⟩, 0, 0⟩]
        = .error ("ZeroDivisionError: float division by zero") := by
  have hIS : icbSummary [⟨("NHS Derby and Derbyshire"), ⟨2024, 1, 1⟩, 0, 0⟩]
      = [⟨("NHS Derby and Derbyshire"), (0 : ℚ) + 0, (0 : ℚ) + 0⟩] := rfl
  have hDF : derbyFilter [⟨("NHS Derby and Derbyshire"), (0 : ℚ) + 0, (0 : ℚ) + 0⟩]
      = [⟨("NHS Derby and Derbyshire"), (0 : ℚ) + 0, (0 : ℚ) + 0⟩] := rfl
  have havg : qMean (([(⟨("NHS Derby and Derbyshire"), (0 : ℚ) + 0, (0 : ℚ) + 0⟩ : ICBRow)]).map
      (fun e => e.cost)) = 0 := by
    simp only [List.map_cons, List.map_nil]
    norm_num [qMean, List.sum_cons, List.sum_nil]
  have hreg : regionalBlock [⟨("NHS Derby and Derbyshire"), ⟨2024, 1, 1⟩, 0, 0⟩]
      = .error ("ZeroDivisionError: float division by zero") := by
    simp only [regionalBlock, List.isEmpty_cons, Bool.false_eq_true, if_false, hIS, hDF, havg]
    rw [if_true]
  refine ⟨hreg, ?_⟩
  have ht : trendBlock ([] : List TrendRecord) = .ok none := rfl
  simp only [analysis_core, ht, hreg]

/-- C8 amended: on a non-empty regional record set whose summary has a
region matching the local-region predicate, and whose national mean of
region totals is non-zero (otherwise the derby deviation raises
ZeroDivisionError, see the counterexample), the reported percentile rank
equals the fraction of regions with total cost at or below the local
total, times 100; and when the local total is the maximum it equals
100. -/
theorem derby_percentile_formula_and_max
    (rows : List RegRecord) (h1 : rows ≠ [])
    (h2 : derbyFilter (icbSummary rows) ≠ [])
    (h3 : qMean ((icbSummary rows).map (fun e => e.cost)) ≠ 0) :
    (regionalBlock rows).map
        (fun o => (o.bind RegionalData.derby_vs_national).map DerbyData.percentile_rank)
        = .ok (some ((((icbSummary rows).countP (fun e => decide (e.cost ≤ localDerbyCost rows)) : ℚ)
            / ((icbSummary rows).length : ℚ)) * 100))
      ∧ ((∀ e ∈ icbSummary rows, e.cost ≤ localDerbyCost rows) →
          (regionalBlock rows).map
            (fun o => (o.bind RegionalData.derby_vs_national).map DerbyData.percentile_rank)
            = .ok (some 100)) := by
  have hre : rows.isEmpty = false := by
    cases rows with
    | nil => exact absurd rfl h1
    | cons a as => rfl
  have hsne : icbSummary rows ≠ [] := by
    intro h
    rw [h] at h2
    exact h2 rfl
  have hse : (icbSummary rows).isEmpty = false := by
    cases hI : icbSummary rows with
    | nil => exact absurd hI hsne
    | cons a as => rfl
  obtain ⟨d, ds, hd⟩ : ∃ d ds, derbyFilter (icbSummary rows) = d :: ds := by
    cases hD : derbyFilter (icbSummary rows) with
    | nil => exact absurd hD h2
    | cons d ds => exact ⟨d, ds, rfl⟩
  have hcost : localDerbyCost rows = d.cost := by
    unfold localDerbyCost
    rw [hd]
    rfl
  have hmain : (regionalBlock rows).map
      (fun o => (o.bind RegionalData.derby_vs_national).map DerbyData.percentile_rank)
      = .ok (some ((((icbSummary rows).countP (fun e => decide (e.cost ≤ localDerbyCost rows)) : ℚ)
          / ((icbSummary rows).length : ℚ)) * 100)) := by
    rw [hcost]
    simp only [regionalBlock, hre, hse, hd, Bool.false_eq_true, if_false, if_neg h3]
    rfl
  refine ⟨hmain, fun hall => ?_⟩
  rw [hmain]
  have hcount : (icbSummary rows).countP (fun e => decide (e.cost ≤ localDerbyCost rows))
      = (icbSummary rows).length :=
    List.countP_eq_length.mpr (fun a ha => decide_eq_true (hall a ha))
  rw [hcount]
  have h0 : (icbSummary rows).length ≠ 0 := by
    intro h
    exact hsne (List.length_eq_zero.mp h)
  have hlen : ((icbSummary rows).length : ℚ) ≠ 0 := Nat.cast_ne_zero.mpr h0
  rw [div_self hlen, one_mul]

/-- Witness for C8: a regional record set whose single region matches the
local-region predicate with a positive total, so the mean is non-zero and
the total is maximal; its percentile rank is reported as 100. -/
theorem derby_percentile_formula_and_max_witness :
    (regionalBlock [⟨("NHS Derby and Derbyshire"), ⟨2024, 1, 1⟩, 50, 2⟩]).map
        (fun o => (o.bind RegionalData.derby_vs_national).map DerbyData.percentile_rank)
      = .ok (some 100) := by
  have hIS : icbSummary [⟨("NHS Derby and Derbyshire"), ⟨2024, 1, 1⟩, 50, 2⟩]
      = [⟨("NHS Derby and Derbyshire"), (50 : ℚ) + 0, (2 : ℚ) + 0⟩] := rfl
  have hcons : derbyFilter (icbSummary [⟨("NHS Derby and Derbyshire"), ⟨2024, 1, 1⟩, 50, 2⟩])
      = [⟨("NHS Derby and Derbyshire"), (50 : ℚ) + 0, (2 : ℚ) + 0⟩] := by
    rw [hIS]
    rfl
  have h3 : qMean ((icbSummary [⟨("NHS Derby and Derbyshire"), ⟨2024, 1, 1⟩, 50, 2⟩]).map
      (fun e => e.cost)) ≠ 0 := by
    rw [hIS]
    simp only [List.map_cons, List.map_nil]
    norm_num [qMean, List.sum_cons, List.sum_nil]
  refine (derby_percentile_formula_and_max _ (List.cons_ne_nil _ _) ?_ h3).2 ?_
  · rw [hcons]
    exact List.cons_ne_nil _ _
  · intro e he
    rw [hIS] at he
    have he2 := List.mem_singleton.mp he
    subst he2
    exact le_of_eq rfl

/-- The last-resort suggestion pass never yields anything: its generator
filters single-character strings by len greater than 2. -/
theorem suggestions_always_empty (q : String) : suggestions q = [] := rfl

/-- Every entry produced by the prefix-probing loop carries the category
Found via API search. -/
theorem prefixLoop_mem_category (probe : String → Except String (List TrendRecord))
    (q : String) (e : String × String × String) :
    ∀ ps : List String, e ∈ prefixLoop probe q ps → e.2.2 = ("Found via API search") := by
  intro ps
  induction ps with
  | nil =>
    intro h
    rw [prefixLoop, suggestions_always_empty] at h
    exact absurd h (List.not_mem_nil _)
  | cons p ps ih =>
    intro h
    rw [prefixLoop] at h
    split at h
    · rw [suggestions_always_empty] at h
      exact absurd h (List.not_mem_nil _)
    · split at h
      · exact ih h
      · rw [List.mem_singleton.mp h]
  
/-- Every entry produced by the API fallback carries one of the two
synthetic fallback categories. -/
theorem apiFallback_mem_category (probe : String → Except String (List TrendRecord))
    (q : String) (e : String × String × String) (h : e ∈ apiFallback probe q) :
    e.2.2 = ("Found in OpenPrescribing Database") ∨ e.2.2 = ("Found via API search") := by
  rw [apiFallback] at h
  split at h
  · rw [suggestions_always_empty] at h
    exact absurd h (List.not_mem_nil _)
  · split at h
    · exact Or.inr (prefixLoop_mem_category probe q e _ h)
    · exact Or.inl (by rw [List.mem_singleton.mp h])

/-- Every entry returned by the name-matching tail of the resolver is
either a reference-table entry or carries a synthetic fallback category. -/
theorem searchLocal_mem_cases (probe : String → Except String (List TrendRecord))
    (q : String) (l : List (String × String × String)) (e : String × String × String)
    (h : searchLocal probe q = .ok l) (he : e ∈ l) :
    e ∈ get_bnf_lookup ∨ e.2.2 = ("Found in OpenPrescribing Database")
      ∨ e.2.2 = ("Found via API search") := by
  rw [searchLocal] at h
  split at h
  · injection h with h2
    subst h2
    exact Or.inr (apiFallback_mem_category probe q e he)
  · injection h with h2
    subst h2
    exact Or.inl (List.mem_filter.mp he).1

/-- C10: the reference table maps each display name to exactly one entry
(its name column has no duplicates); resolving prednisolone returns, for
every probe, exactly the later literal table entry 0302020P0 with category
Oral Corticosteroid; no table entry carries the earlier code 0603020P0;
and no resolver output whatsoever carries the earlier (code, category)
pair, so that pair is unreachable through resolution. -/
theorem prednisolone_resolution_unique_and_later_entry :
    ((get_bnf_lookup.map Prod.fst).Nodup)
    ∧ (∀ probe, search_drugs probe ("prednisolone")
        = .ok [(("prednisolone"), ("0302020P0"), ("Oral Corticosteroid"))])
    ∧ (∀ e ∈ get_bnf_lookup, e.2.1 ≠ ("0603020P0"))
    ∧ (∀ (probe : String → Except String (List TrendRecord)) (q : String)
        (l : List (String × String × String)),
        search_drugs probe q = .ok l →
          ∀ e ∈ l, ¬(e.2.1 = ("0603020P0") ∧ e.2.2 = ("Corticosteroid"))) := by
  refine ⟨by decide, fun probe => rfl, by decide, ?_⟩
  intro probe q l hsl e he hconj
  obtain ⟨hcode, hcat⟩ := hconj
  have htab : ∀ x ∈ get_bnf_lookup, x.2.1 ≠ ("0603020P0") := by decide
  rw [search_drugs] at hsl
  split at hsl
  · split at hsl
    · exact Except.noConfusion hsl
    · split at hsl
      · rcases searchLocal_mem_cases probe q l e hsl he with hm | hc | hc
        · exact htab e hm hcode
        · rw [hc] at hcat
          exact absurd hcat (by decide)
        · rw [hc] at hcat
          exact absurd hcat (by decide)
      · injection hsl with h2
        subst h2
        rw [List.mem_singleton.mp he] at hcat
        exact absurd (show ("Direct BNF Code" : String) = ("Corticosteroid") from hcat) (by decide)
  · rcases searchLocal_mem_cases probe q l e hsl he with hm | hc | hc
    · exact htab e hm hcode
    · rw [hc] at hcat
      exact absurd hcat (by decide)
    · rw [hc] at hcat
      exact absurd hcat (by decide)

/-- Witness for C10: the unreachability part applied to the concrete query
prednisolone and its resolved entry. -/
theorem prednisolone_resolution_unique_and_later_entry_witness :
    ¬(((("prednisolone"), ("0302020P0"), ("Oral Corticosteroid")) :
        String × String × String).2.1 = ("0603020P0")
      ∧ ((("prednisolone"), ("0302020P0"), ("Oral Corticosteroid")) :
        String × String × String).2.2 = ("Corticosteroid")) := by
  have h := prednisolone_resolution_unique_and_later_entry
  exact h.2.2.2 (fun _ => Except.ok []) ("prednisolone") _
    (h.2.1 (fun _ => Except.ok []))
    ((("prednisolone"), ("0302020P0"), ("Oral Corticosteroid")) : String × String × String)
    (List.mem_singleton.mpr rfl)

end NHS
